import Mathlib

/-!
Verification model of the funland three-stage ETL pipeline
(`src/lambda_handler/extract.py`, `transform.py`, `load.py`).

The Python code is shallowly embedded: every external effect is an
explicit value.  The SSM parameter store, the source database, the two
S3 buckets and the warehouse are inputs and outputs of the modelled
handlers; the wall clock is passed in as the strings that
`datetime.now(timezone.utc).isoformat()` would have produced; Python
exceptions are modelled with `Except`.
-/

namespace Funland

/-- Cell values travelling through the pipeline: rows returned by
pg8000, CSV/parquet dataframe cells.  `nan` stands for the pandas
null-likes (NaN/NaT/None). -/
inductive Value where
  | nan : Value
  | str : String → Value
  | num : Int → Value
  deriving DecidableEq, Repr

/-- The Python exceptions the modelled code can surface. -/
inductive PyErr where
  | typeError     -- unpacking a non-iterable (None)
  | uploadError   -- wr.s3.to_csv raised and the helper re-raised
  | clientError   -- botocore ClientError
  | valueError    -- missing event/environment value
  | keyError      -- dict key missing, e.g. response["Contents"]
  deriving DecidableEq, Repr

/-! ## Extractor (extract.py) -/

/-- Outcome of `ssm_client.get_parameter(Name='last_checked')`. -/
inductive SsmGet where
  | found (v : String)
  | notFound
  | clientError
  deriving DecidableEq, Repr

/-- extract.py line 148: the sentinel used on the first ever run. -/
def DEFAULT_LAST_CHECKED : String := "1970-01-01T00:00:00+00:00"

/-- extract.py `get_last_checked` (lines 154-179): the stored value when
present; on `ParameterNotFound` the epoch sentinel is returned (the
exception is swallowed); any other `ClientError` is logged and
re-raised. -/
def get_last_checked (resp : SsmGet) : Except PyErr String :=
  match resp with
  | .found v => .ok v
  | .notFound => .ok DEFAULT_LAST_CHECKED
  | .clientError => .error .clientError

/-- pg8000 `identifier(name)`: the plain lower-case table names used by
this pipeline pass through unquoted. -/
def pgIdentifier (name : String) : String := name

/-- pg8000 `literal(datetime_obj)`: rendered as a quoted timestamp
literal; only its placement inside the SQL text matters here. -/
def pgLiteral (ts : String) : String := "'" ++ ts ++ "'"

/-- The SQL text built by extract.py `extract_new_rows` (lines 266-275):
no predicate at all for "department", otherwise a strict
`WHERE last_updated > <watermark>` filter. -/
def extract_query (table_name : String) (last_checked : String) : String :=
  if table_name = "department" then
    "\n    SELECT * FROM " ++ pgIdentifier table_name ++ "\n    "
  else
    "\n    SELECT * FROM " ++ pgIdentifier table_name ++
      " WHERE last_updated > " ++ pgLiteral last_checked ++ "\n    "

/-- Outcome of `db_connection.run(query)` for one issued SQL string. -/
inductive QueryOutcome where
  | ok (column_names : List String) (rows : List (List Value))
  | dbError      -- pg8000 DatabaseError
  deriving DecidableEq, Repr

/-- extract.py `extract_new_rows` (lines 239-284): builds the SQL, runs
it, and returns the (column names, rows) pair.  A `DatabaseError` is
caught, logged and NOT re-raised; the function then falls off its end,
i.e. returns Python `None` — modelled as `none`. -/
def extract_new_rows (table_name last_checked : String)
    (db : String → QueryOutcome) : Option (List String × List (List Value)) :=
  match db (extract_query table_name last_checked) with
  | .ok cols rows => some (cols, rows)
  | .dbError => none

/-- Model of extract.py line 105, `_utc_now_iso().replace(":", "-")`:
every colon of the timestamp is replaced by a hyphen (the pattern is a
single character, so occurrences cannot overlap). -/
def sanitizeBatchId (now : String) : String :=
  String.mk (now.toList.map (fun c => if c = ':' then '-' else c))

/-- The S3 key written by extract.py
`convert_new_rows_to_df_and_upload_to_s3_as_csv` (line 313):
`{table}/{batch_id}.csv` inside the ingestion bucket. -/
def extract_write_key (table batch_id : String) : String :=
  table ++ "/" ++ batch_id ++ ".csv"

/-- extract.py lines 94-99: the fixed table list of one cycle. -/
def tables_to_import : List String :=
  ["transaction", "sales_order", "payment", "counterparty", "currency",
   "department", "design", "staff", "address", "purchase_order",
   "payment_type"]

/-- External state the extractor reads and writes: the persisted
`last_checked` SSM parameter and the keys present in the ingestion
bucket. -/
structure ExtractState where
  last_checked_param : Option String
  s3_keys : List String
  deriving DecidableEq, Repr

/-- External inputs of one run that are not persisted state: the
database (a function from issued SQL to its outcome), whether an S3
`to_csv` write to a given key succeeds, and the two wall-clock samples
(`_utc_now_iso()` at line 105 for the batch id and at line 125 for the
new watermark). -/
structure ExtractEnv where
  db : String → QueryOutcome
  uploadOk : String → Bool
  now_batch : String
  now_end : String

/-- The SSM view of the persisted parameter (the ClientError case is
exercised separately through `get_last_checked`). -/
def ssmOf (p : Option String) : SsmGet :=
  match p with
  | some v => .found v
  | none => .notFound

/-- The watermark value the handler actually works with: the stored
parameter, or the sentinel on a first run. -/
def effective_last_checked (p : Option String) : String :=
  match p with
  | some v => v
  | none => DEFAULT_LAST_CHECKED

/-- The per-table loop of extract.py `lambda_handler` (lines 110-122),
threading the ingestion-bucket keys.  In Python,
`column_names, new_rows = extract_new_rows(...)` raises a `TypeError`
when `extract_new_rows` returned `None` (after a swallowed
DatabaseError); a failing upload re-raises out of the loop.  On success
the `uploaded_tables` accumulator is returned together with the new
bucket contents. -/
def run_tables (env : ExtractEnv) (last_checked batch_id : String) :
    List String → List String → (Except PyErr (List String)) × List String
  | [], keys => (.ok [], keys)
  | table :: rest, keys =>
    match extract_new_rows table last_checked env.db with
    | none => (.error .typeError, keys)
    | some (_cols, new_rows) =>
      if new_rows.isEmpty then
        run_tables env last_checked batch_id rest keys
      else
        let key := extract_write_key table batch_id
        if env.uploadOk key then
          match run_tables env last_checked batch_id rest (keys ++ [key]) with
          | (.ok uploaded, keys2) => (.ok (table :: uploaded), keys2)
          | (.error e, keys2) => (.error e, keys2)
        else
          (.error .uploadError, keys)

/-- The payload extract.py `lambda_handler` returns (lines 129-134). -/
structure ExtractResult where
  message : String
  timestamp_to_transform : String
  batch_id : String
  uploaded_tables : List String
  deriving DecidableEq, Repr

/-- extract.py `lambda_handler` (lines 79-142): read the watermark,
fetch credentials/connection (modelled as already succeeded inside
`env.db`), build the batch id from the current time, run every table in
order, and only after the whole loop `update_last_checked` persists the
fresh end-of-run timestamp.  There is no `except` around the loop (only
a `finally` closing the connection), so any exception propagates with
the watermark untouched. -/
def extract_lambda_handler (env : ExtractEnv) (st : ExtractState) :
    (Except PyErr ExtractResult) × ExtractState :=
  match get_last_checked (ssmOf st.last_checked_param) with
  | .error e => (.error e, st)
  | .ok last_checked =>
    let batch_id := sanitizeBatchId env.now_batch
    match run_tables env last_checked batch_id tables_to_import st.s3_keys with
    | (.ok uploaded, keys) =>
      (.ok { message := "success"
             timestamp_to_transform := last_checked
             batch_id := batch_id
             uploaded_tables := uploaded },
       { last_checked_param := some env.now_end, s3_keys := keys })
    | (.error e, keys) =>
      (.error e, { st with s3_keys := keys })

/-- The key a transform.py builder looks the raw artifact up under
(e.g. line 71 `f"currency/{last_checked}.csv"` where `last_checked` is
the event's `timestamp_to_transform`). -/
def transform_lookup_key (table timestamp_to_transform : String) : String :=
  table ++ "/" ++ timestamp_to_transform ++ ".csv"

/-! Classification helpers describing what the environment does to one
table in a given run; used to phrase the claims' hypotheses. -/

/-- Whether this table's query raises a DatabaseError in this run. -/
def queryDbErr (env : ExtractEnv) (last_checked table : String) : Bool :=
  match env.db (extract_query table last_checked) with
  | .dbError => true
  | .ok _ _ => false

/-- Whether this table's query succeeds and returns zero rows. -/
def queryRowsEmpty (env : ExtractEnv) (last_checked table : String) : Bool :=
  match env.db (extract_query table last_checked) with
  | .ok _ rows => rows.isEmpty
  | .dbError => false

/-- Whether this table's query succeeds with rows but the artifact write
for it fails. -/
def uploadFails (env : ExtractEnv) (last_checked batch_id table : String) : Bool :=
  match env.db (extract_query table last_checked) with
  | .ok _ rows => !rows.isEmpty && !(env.uploadOk (extract_write_key table batch_id))
  | .dbError => false

/-- Whether this table's step completes without raising: the query
succeeds and, when it returned rows, the artifact write succeeds. -/
def tableSucceeds (env : ExtractEnv) (last_checked batch_id table : String) : Bool :=
  match env.db (extract_query table last_checked) with
  | .ok _ rows => rows.isEmpty || env.uploadOk (extract_write_key table batch_id)
  | .dbError => false

theorem get_last_checked_ssmOf (p : Option String) :
    get_last_checked (ssmOf p) = .ok (effective_last_checked p) := by
  cases p <;> rfl

/-- If every table's step completes, the loop succeeds; the bucket gains
exactly the uploaded tables' keys, and every uploaded table is one of
the processed tables whose query returned rows. -/
theorem run_tables_ok_of_all_succeed (env : ExtractEnv) (lc batch : String) :
    ∀ (l : List String) (keys : List String),
      (∀ t ∈ l, tableSucceeds env lc batch t = true) →
      ∃ up, run_tables env lc batch l keys =
          (.ok up, keys ++ up.map (fun t => extract_write_key t batch)) ∧
        ∀ t ∈ up, t ∈ l ∧ queryRowsEmpty env lc t = false := by
  intro l
  induction l with
  | nil =>
    intro keys _
    exact ⟨[], by simp [run_tables], by simp⟩
  | cons table rest ih =>
    intro keys h
    have htab := h table (List.mem_cons_self _ _)
    unfold tableSucceeds at htab
    cases hq : env.db (extract_query table lc) with
    | dbError => rw [hq] at htab; simp at htab
    | ok cols rows =>
      rw [hq] at htab
      simp only [run_tables, extract_new_rows, hq]
      by_cases hemp : rows.isEmpty
      · rw [if_pos hemp]
        obtain ⟨up, hrun, hup⟩ :=
          ih keys (fun t ht => h t (List.mem_cons_of_mem _ ht))
        exact ⟨up, hrun, fun t ht =>
          ⟨List.mem_cons_of_mem _ (hup t ht).1, (hup t ht).2⟩⟩
      · rw [if_neg hemp]
        have hupok : env.uploadOk (extract_write_key table batch) = true := by
          rcases Bool.or_eq_true_iff.mp htab with h1 | h1
          · exact absurd h1 hemp
          · exact h1
        rw [if_pos hupok]
        obtain ⟨up, hrun, hup⟩ :=
          ih (keys ++ [extract_write_key table batch])
            (fun t ht => h t (List.mem_cons_of_mem _ ht))
        rw [hrun]
        refine ⟨table :: up, ?_, ?_⟩
        · simp
        · intro t ht
          rcases List.mem_cons.mp ht with rfl | htup
          · refine ⟨List.mem_cons_self _ _, ?_⟩
            unfold queryRowsEmpty
            rw [hq]
            simpa using hemp
          · exact ⟨List.mem_cons_of_mem _ (hup t htup).1, (hup t htup).2⟩

/-- A successful loop run appended exactly the uploaded tables' keys. -/
theorem run_tables_ok_keys (env : ExtractEnv) (lc batch : String) :
    ∀ (l : List String) (keys up keys2 : List String),
      run_tables env lc batch l keys = (.ok up, keys2) →
      keys2 = keys ++ up.map (fun t => extract_write_key t batch) := by
  intro l
  induction l with
  | nil =>
    intro keys up keys2 h
    simp [run_tables] at h
    obtain ⟨h1, h2⟩ := h
    subst h1
    subst h2
    simp
  | cons table rest ih =>
    intro keys up keys2 h
    simp only [run_tables, extract_new_rows] at h
    cases hq : env.db (extract_query table lc) with
    | dbError => simp only [hq] at h; simp at h
    | ok cols rows =>
      simp only [hq] at h
      by_cases hemp : rows.isEmpty
      · rw [if_pos hemp] at h
        exact ih keys up keys2 h
      · rw [if_neg hemp] at h
        by_cases hupok : env.uploadOk (extract_write_key table batch)
        · rw [if_pos hupok] at h
          cases hrun : run_tables env lc batch rest
              (keys ++ [extract_write_key table batch]) with
          | mk res keysr =>
            rw [hrun] at h
            cases res with
            | ok uprest =>
              simp only [Prod.mk.injEq, Except.ok.injEq] at h
              obtain ⟨h1, h2⟩ := h
              have hk := ih _ uprest keysr hrun
              subst h1
              subst h2
              simp [hk]
            | error e => simp at h
        · rw [if_neg hupok] at h
          simp at h

/-- If no table query raises but some reached table's artifact write
fails, the loop raises. -/
theorem run_tables_err_of_upload_failure (env : ExtractEnv) (lc batch : String) :
    ∀ (l : List String) (keys : List String),
      (∀ t ∈ l, queryDbErr env lc t = false) →
      (∃ t ∈ l, uploadFails env lc batch t = true) →
      ∃ e keys2, run_tables env lc batch l keys = (.error e, keys2) := by
  intro l
  induction l with
  | nil =>
    intro keys _ hex
    simp at hex
  | cons table rest ih =>
    intro keys hdb hex
    have hdbhead := hdb table (List.mem_cons_self _ _)
    unfold queryDbErr at hdbhead
    cases hq : env.db (extract_query table lc) with
    | dbError => rw [hq] at hdbhead; simp at hdbhead
    | ok cols rows =>
      simp only [run_tables, extract_new_rows, hq]
      by_cases hemp : rows.isEmpty
      · rw [if_pos hemp]
        have hex2 : ∃ t ∈ rest, uploadFails env lc batch t = true := by
          obtain ⟨t, ht, hf⟩ := hex
          rcases List.mem_cons.mp ht with rfl | htrest
          · exfalso
            simp only [uploadFails, hq] at hf
            simp [hemp] at hf
          · exact ⟨t, htrest, hf⟩
        exact ih keys (fun t ht => hdb t (List.mem_cons_of_mem _ ht)) hex2
      · rw [if_neg hemp]
        by_cases hupok : env.uploadOk (extract_write_key table batch)
        · rw [if_pos hupok]
          have hex2 : ∃ t ∈ rest, uploadFails env lc batch t = true := by
            obtain ⟨t, ht, hf⟩ := hex
            rcases List.mem_cons.mp ht with rfl | htrest
            · exfalso
              simp only [uploadFails, hq] at hf
              simp [hemp, hupok] at hf
            · exact ⟨t, htrest, hf⟩
          obtain ⟨e, keys2, hrun⟩ :=
            ih (keys ++ [extract_write_key table batch])
              (fun t ht => hdb t (List.mem_cons_of_mem _ ht)) hex2
          rw [hrun]
          exact ⟨e, keys2, rfl⟩
        · rw [if_neg hupok]
          exact ⟨.uploadError, keys, rfl⟩

/-- Lists that agree up to their first slash agree on the slash-free
part before it. -/
theorem append_slash_cons_inj :
    ∀ (a b s1 s2 : List Char), '/' ∉ a → '/' ∉ b →
      a ++ '/' :: s1 = b ++ '/' :: s2 → a = b := by
  intro a
  induction a with
  | nil =>
    intro b s1 s2 _ hb h
    cases b with
    | nil => rfl
    | cons c cb =>
      simp only [List.nil_append, List.cons_append, List.cons.injEq] at h
      exact absurd (h.1 ▸ List.mem_cons_self c cb) hb
  | cons c ca ih =>
    intro b s1 s2 ha hb h
    cases b with
    | nil =>
      simp only [List.nil_append, List.cons_append, List.cons.injEq] at h
      exact absurd (h.1 ▸ List.mem_cons_self c ca) ha
    | cons d db =>
      simp only [List.cons_append, List.cons.injEq] at h
      obtain ⟨rfl, h2⟩ := h
      rw [ih db s1 s2 (fun hm => ha (List.mem_cons_of_mem _ hm))
        (fun hm => hb (List.mem_cons_of_mem _ hm)) h2]

theorem extract_write_key_toList (t batch : String) :
    (extract_write_key t batch).toList =
      t.toList ++ '/' :: (batch.toList ++ ".csv".toList) := by
  simp [extract_write_key, String.toList]

/-- For slash-free table names the write key determines the table. -/
theorem extract_write_key_inj {t1 t2 batch : String}
    (h1 : '/' ∉ t1.toList) (h2 : '/' ∉ t2.toList)
    (h : extract_write_key t1 batch = extract_write_key t2 batch) : t1 = t2 := by
  have hd := congrArg String.toList h
  rw [extract_write_key_toList, extract_write_key_toList] at hd
  have := append_slash_cons_inj t1.toList t2.toList _ _ h1 h2 hd
  cases t1 with
  | mk d1 =>
    cases t2 with
    | mk d2 =>
      simp only [String.toList] at this
      rw [this]

theorem tables_to_import_slash_free :
    ∀ t ∈ tables_to_import, '/' ∉ t.toList := by decide

/-- C4: the SQL issued for every table other than "department" contains the
strict predicate `WHERE last_updated > <watermark literal>` (equality
excluded), and the SQL issued for "department" contains no WHERE predicate
at all. -/
theorem extract_query_strict_predicate (table watermark : String) :
    (table ≠ "department" →
      (" WHERE last_updated > " ++ pgLiteral watermark).toList <:+:
        (extract_query table watermark).toList) ∧
    extract_query "department" watermark =
      "\n    SELECT * FROM department\n    " ∧
    ¬ ("WHERE".toList <:+: (extract_query "department" watermark).toList) := by
  refine ⟨?_, rfl, ?_⟩
  · intro h
    refine ⟨("\n    SELECT * FROM " ++ pgIdentifier table).toList,
      "\n    ".toList, ?_⟩
    rw [extract_query, if_neg h]
    simp [String.toList, pgIdentifier, pgLiteral]
  · have hq : extract_query "department" watermark =
        "\n    SELECT * FROM department\n    " := rfl
    rw [hq]
    decide

/-- Witness for the predicate theorem: the "currency" table with the epoch
sentinel watermark. -/
theorem extract_query_strict_predicate_witness :
    ("currency" ≠ "department" → (" WHERE last_updated > " ++
        pgLiteral DEFAULT_LAST_CHECKED).toList <:+:
      (extract_query "currency" DEFAULT_LAST_CHECKED).toList) ∧
    extract_query "department" DEFAULT_LAST_CHECKED =
      "\n    SELECT * FROM department\n    " ∧
    ¬ ("WHERE".toList <:+:
      (extract_query "department" DEFAULT_LAST_CHECKED).toList) :=
  extract_query_strict_predicate "currency" DEFAULT_LAST_CHECKED

/-- C6: get_last_checked returns the persisted watermark when it exists,
returns the fixed epoch sentinel without raising when the parameter is
absent, and re-raises any other AWS client error. -/
theorem get_last_checked_contract :
    (∀ v, get_last_checked (SsmGet.found v) = .ok v) ∧
    get_last_checked SsmGet.notFound = .ok "1970-01-01T00:00:00+00:00" ∧
    get_last_checked SsmGet.clientError = .error PyErr.clientError :=
  ⟨fun _ => rfl, rfl, rfl⟩

/-- C3: the watermark is written only after every changed table's artifact:
when queries succeed but some reached table's artifact write fails, the run
errors out (the exception is not swallowed) with the stored watermark
untouched; and any successful run persisted the end-of-run time with every
uploaded table's artifact present in the bucket. -/
theorem watermark_persisted_only_after_writes (env : ExtractEnv)
    (st : ExtractState) :
    (((∀ t ∈ tables_to_import,
        queryDbErr env (effective_last_checked st.last_checked_param) t
          = false) ∧
      (∃ t ∈ tables_to_import,
        uploadFails env (effective_last_checked st.last_checked_param)
          (sanitizeBatchId env.now_batch) t = true)) →
      ∃ e st2, extract_lambda_handler env st = (.error e, st2) ∧
        st2.last_checked_param = st.last_checked_param) ∧
    (∀ r st2, extract_lambda_handler env st = (.ok r, st2) →
      st2.last_checked_param = some env.now_end ∧
      ∀ t ∈ r.uploaded_tables,
        extract_write_key t r.batch_id ∈ st2.s3_keys) := by
  constructor
  · rintro ⟨hdb, hfail⟩
    obtain ⟨e, keys2, hrun⟩ := run_tables_err_of_upload_failure env
      (effective_last_checked st.last_checked_param)
      (sanitizeBatchId env.now_batch) tables_to_import st.s3_keys hdb hfail
    refine ⟨e, { st with s3_keys := keys2 }, ?_, rfl⟩
    simp only [extract_lambda_handler, get_last_checked_ssmOf, hrun]
  · intro r st2 hok
    cases hrun : run_tables env (effective_last_checked st.last_checked_param)
        (sanitizeBatchId env.now_batch) tables_to_import st.s3_keys with
    | mk res keys2 =>
      simp only [extract_lambda_handler, get_last_checked_ssmOf, hrun] at hok
      cases res with
      | error e => simp at hok
      | ok up =>
        simp only [Prod.mk.injEq, Except.ok.injEq] at hok
        obtain ⟨hr, hs⟩ := hok
        subst hr
        subst hs
        refine ⟨rfl, ?_⟩
        intro t ht
        have hk := run_tables_ok_keys env
          (effective_last_checked st.last_checked_param)
          (sanitizeBatchId env.now_batch) tables_to_import
          st.s3_keys up keys2 hrun
        simp only [hk]
        exact List.mem_append_right _ (List.mem_map_of_mem _ ht)

/-- Witness for the watermark theorem: on a run where the "currency" query
returns one row but its artifact write fails, the handler errors and the
stored watermark stays at the sentinel. -/
theorem watermark_persisted_only_after_writes_witness :
    ∃ e st2,
      extract_lambda_handler
        { db := fun q =>
            if q = extract_query "currency" DEFAULT_LAST_CHECKED then
              .ok ["currency_id"] [[.num 1]]
            else .ok ["id"] []
          uploadOk := fun _ => false
          now_batch := "2026-10-12T10:00:00+00:00"
          now_end := "2026-10-12T10:00:05+00:00" }
        { last_checked_param := some DEFAULT_LAST_CHECKED, s3_keys := [] }
        = (.error e, st2) ∧
      st2.last_checked_param = some DEFAULT_LAST_CHECKED :=
  (watermark_persisted_only_after_writes _ _).1 ⟨by decide, by decide⟩

/-- C5: in a cycle where every table's step completes, any table whose
query returned zero rows gets no artifact written and is absent from
uploaded_tables, while the cycle as a whole succeeds and advances the
watermark to the end-of-run time. -/
theorem zero_row_table_skipped (env : ExtractEnv) (st : ExtractState)
    (hall : ∀ t ∈ tables_to_import,
      tableSucceeds env (effective_last_checked st.last_checked_param)
        (sanitizeBatchId env.now_batch) t = true)
    (table : String) (hmem : table ∈ tables_to_import)
    (hempty : queryRowsEmpty env
      (effective_last_checked st.last_checked_param) table = true)
    (hfresh : extract_write_key table (sanitizeBatchId env.now_batch) ∉
      st.s3_keys) :
    ∃ r st2, extract_lambda_handler env st = (.ok r, st2) ∧
      r.message = "success" ∧
      table ∉ r.uploaded_tables ∧
      extract_write_key table r.batch_id ∉ st2.s3_keys ∧
      st2.s3_keys = st.s3_keys ++
        r.uploaded_tables.map (fun t => extract_write_key t r.batch_id) ∧
      st2.last_checked_param = some env.now_end := by
  obtain ⟨up, hrun, hup⟩ := run_tables_ok_of_all_succeed env
    (effective_last_checked st.last_checked_param)
    (sanitizeBatchId env.now_batch) tables_to_import st.s3_keys hall
  have hnotin : table ∉ up := by
    intro hin
    have hne := (hup table hin).2
    rw [hempty] at hne
    exact Bool.noConfusion hne
  refine ⟨{ message := "success"
            timestamp_to_transform :=
              effective_last_checked st.last_checked_param
            batch_id := sanitizeBatchId env.now_batch
            uploaded_tables := up },
          { last_checked_param := some env.now_end
            s3_keys := st.s3_keys ++
              up.map (fun t =>
                extract_write_key t (sanitizeBatchId env.now_batch)) },
          ?_, rfl, hnotin, ?_, rfl, rfl⟩
  · simp only [extract_lambda_handler, get_last_checked_ssmOf, hrun]
  · intro hin
    rcases List.mem_append.mp hin with hleft | hright
    · exact hfresh hleft
    · obtain ⟨t, htup, heq⟩ := List.mem_map.mp hright
      have ht1 := tables_to_import_slash_free t (hup t htup).1
      have ht2 := tables_to_import_slash_free table hmem
      have : t = table := extract_write_key_inj ht1 ht2 heq
      exact hnotin (this ▸ htup)

/-- Witness for the zero-row theorem: a run where every query returns zero
rows; "payment_type" is skipped and the watermark still advances. -/
theorem zero_row_table_skipped_witness :
    ∃ r st2,
      extract_lambda_handler
        { db := fun _ => .ok ["id"] []
          uploadOk := fun _ => true
          now_batch := "2026-10-12T10:00:00+00:00"
          now_end := "2026-10-12T10:00:05+00:00" }
        { last_checked_param := some DEFAULT_LAST_CHECKED, s3_keys := [] }
        = (.ok r, st2) ∧
      r.message = "success" ∧
      "payment_type" ∉ r.uploaded_tables ∧
      extract_write_key "payment_type" r.batch_id ∉ st2.s3_keys ∧
      st2.s3_keys = [] ++
        r.uploaded_tables.map (fun t => extract_write_key t r.batch_id) ∧
      st2.last_checked_param = some "2026-10-12T10:00:05+00:00" :=
  zero_row_table_skipped _ _ (by decide) "payment_type" (by decide)
    (by decide) (by decide)

/-- Concrete run used to exhibit the extractor-to-transformer handoff:
the "currency" query against the sentinel watermark returns one fresh
row, every other query returns zero rows, all writes succeed. -/
def handoff_db (q : String) : QueryOutcome :=
  if q = extract_query "currency" DEFAULT_LAST_CHECKED then
    .ok ["currency_id", "currency_code", "created_at", "last_updated"]
      [[.num 1, .str "GBP", .str "2025-11-02 14:20:49.962000",
        .str "2025-11-02 14:20:49.962000"]]
  else
    .ok ["id"] []

def handoff_env : ExtractEnv :=
  { db := handoff_db
    uploadOk := fun _ => true
    now_batch := "2026-10-12T10:00:00.123456+00:00"
    now_end := "2026-10-12T10:00:00.654321+00:00" }

def handoff_st : ExtractState :=
  { last_checked_param := some DEFAULT_LAST_CHECKED, s3_keys := [] }

/-- C1 (the code evaluated at a concrete run): the extractor writes the
currency artifact under the colon-sanitized batch id, yet returns
`timestamp_to_transform` = the OLD watermark (colons intact); the
transformer's lookup key `currency/{timestamp_to_transform}.csv` is not
a key this batch wrote, so the handoff key and the filename key
disagree. -/
theorem handoff_key_mismatch :
    extract_lambda_handler handoff_env handoff_st =
      (.ok { message := "success"
             timestamp_to_transform := "1970-01-01T00:00:00+00:00"
             batch_id := "2026-10-12T10-00-00.123456+00-00"
             uploaded_tables := ["currency"] },
       { last_checked_param := some "2026-10-12T10:00:00.654321+00:00"
         s3_keys := ["currency/2026-10-12T10-00-00.123456+00-00.csv"] }) ∧
    transform_lookup_key "currency" "1970-01-01T00:00:00+00:00" ∉
      ["currency/2026-10-12T10-00-00.123456+00-00.csv"] := by
  constructor
  · rfl
  · decide

/-- Concrete database where the "currency" query raises a DatabaseError
and every other query returns zero rows. -/
def dberr_db (q : String) : QueryOutcome :=
  if q = extract_query "currency" DEFAULT_LAST_CHECKED then .dbError
  else .ok ["id"] []

def dberr_env : ExtractEnv :=
  { db := dberr_db
    uploadOk := fun _ => true
    now_batch := "2026-10-12T10:00:00.123456+00:00"
    now_end := "2026-10-12T10:00:00.654321+00:00" }

/-- C2 (the code evaluated at the failing input): when the "currency"
query raises a DatabaseError, `extract_new_rows` swallows it and returns
None, and `lambda_handler`'s tuple unpacking then raises a TypeError —
the cycle ABORTS instead of continuing with the remaining tables, and
the watermark is left at its old value instead of advancing. -/
theorem db_error_aborts_cycle :
    extract_lambda_handler dberr_env handoff_st =
      (.error PyErr.typeError,
       { last_checked_param := some "1970-01-01T00:00:00+00:00"
         s3_keys := [] }) := by
  rfl

/-! ## Transformer (transform.py)

Dataframes are modelled as a named-column table; the pandas operations
the builders use (drop with errors="ignore", rename, left merge, column
assignment, projection, astype-to-string) are given direct definitions
on that table.  The merge-suffix disambiguation pandas applies to
clashing column names is not modelled; the builders drop those
bookkeeping columns by name exactly as the source does. -/

/-- A dataframe: column names and rows aligned with them. -/
structure Df where
  cols : List String
  rows : List (List Value)
  deriving DecidableEq, Repr

/-- Value of the named column inside one row. -/
def getCol (cols : List String) (row : List Value) (c : String) : Value :=
  match (cols.zip row).find? (fun p => p.1 == c) with
  | some p => p.2
  | none => .nan

/-- pandas `df.drop(columns=names, errors="ignore")`. -/
def dropColumns (names : List String) (df : Df) : Df :=
  { cols := df.cols.filter (fun c => !names.contains c)
    rows := df.rows.map (fun r =>
      (df.cols.zip r).filterMap (fun p =>
        if names.contains p.1 then none else some p.2)) }

/-- pandas `df.rename(columns={old: new})`. -/
def renameColumn (old new : String) (df : Df) : Df :=
  { df with cols := df.cols.map (fun c => if c = old then new else c) }

/-- pandas `df.rename(columns=mapping)` for several columns. -/
def renameColumns (mapping : List (String × String)) (df : Df) : Df :=
  { df with cols := df.cols.map (fun c =>
      match mapping.find? (fun p => p.1 == c) with
      | some p => p.2
      | none => c) }

/-- pandas column assignment `df[name] = f(row)`: overwrite the column
in place when it exists, otherwise append it on the right. -/
def setColumn (name : String) (f : List String → List Value → Value)
    (df : Df) : Df :=
  if df.cols.contains name then
    { cols := df.cols
      rows := df.rows.map (fun r =>
        (df.cols.zip r).map (fun p =>
          if p.1 = name then f df.cols r else p.2)) }
  else
    { cols := df.cols ++ [name]
      rows := df.rows.map (fun r => r ++ [f df.cols r]) }

/-- pandas `df[final_columns]`: project to the given columns in order. -/
def selectColumns (names : List String) (df : Df) : Df :=
  { cols := names
    rows := df.rows.map (fun r => names.map (getCol df.cols r)) }

/-- Rendering used by `astype("string")`. -/
def valueToString (v : Value) : Value :=
  match v with
  | .nan => .nan
  | .str s => .str s
  | .num n => .str (toString n)

/-- transform.py lines 98-99: force a column to string, guarded by the
column being present. -/
def astypeString (name : String) (df : Df) : Df :=
  if df.cols.contains name then
    { cols := df.cols
      rows := df.rows.map (fun r =>
        (df.cols.zip r).map (fun p =>
          if p.1 = name then valueToString p.2 else p.2)) }
  else df

/-- pandas `left.merge(right, on=key, how="left")`: every left row kept;
joined to the first right row with an equal key value, or null-filled
right columns when none matches. -/
def mergeLeft (key : String) (l r : Df) : Df :=
  let rightCols := r.cols.filter (fun c => !(c == key))
  { cols := l.cols ++ rightCols
    rows := l.rows.map (fun lrow =>
      match r.rows.find?
          (fun rrow => getCol r.cols rrow key == getCol l.cols lrow key) with
      | some rrow => lrow ++ rightCols.map (getCol r.cols rrow)
      | none => lrow ++ rightCols.map (fun _ => Value.nan)) }

/-- transform.py `check_file_exists` (lines 56-64): a head_object that
404s means absent; the ingestion bucket is modelled as a lookup. -/
def check_file_exists (ingestion : String → Option Df) (key : String) :
    Bool :=
  (ingestion key).isSome

/-- Models `pd.to_datetime(v).dt.date` for the ISO-formatted strings the
extractor serialized: the date is the first 10 characters. -/
def isoDatePart (v : Value) : Value :=
  match v with
  | .str s => .str (String.mk (s.toList.take 10))
  | v => v

/-- Models `pd.to_datetime(v).dt.time` for ISO-formatted strings: the
time is everything after the date and separator. -/
def isoTimePart (v : Value) : Value :=
  match v with
  | .str s => .str (String.mk (s.toList.drop 11))
  | v => v

/-- transform.py `dim_currency` (lines 70-83). -/
def dim_currency (last_checked : String) (ingestion : String → Option Df) :
    List (String × Df) :=
  match ingestion ("currency/" ++ last_checked ++ ".csv") with
  | none => []   -- logs "No currency file found" and returns
  | some df0 =>
    let df1 := dropColumns ["Unnamed: 0", "created_at", "last_updated"] df0
    let df2 := setColumn "currency_name"
      (fun cols r =>
        match getCol cols r "currency_code" with
        | .str s => .str (s ++ "_Name")
        | _ => .nan) df1
    [("dim_currency/" ++ last_checked ++ ".parquet", df2)]

/-- transform.py `dim_location` (lines 86-110). -/
def dim_location (last_checked : String) (ingestion : String → Option Df) :
    List (String × Df) :=
  match ingestion ("address/" ++ last_checked ++ ".csv") with
  | none => []   -- logs "No address file found" and returns
  | some df0 =>
    let df1 := renameColumn "address_id" "location_id" df0
    let df2 := dropColumns ["Unnamed: 0", "created_at", "last_updated"] df1
    let df3 := astypeString "postal_code" df2
    let df4 := selectColumns
      ["location_id", "address_line_1", "address_line_2", "district",
       "city", "postal_code", "country", "phone"] df3
    [("dim_location/" ++ last_checked ++ ".parquet", df4)]

/-- transform.py `dim_staff` (lines 115-144): staff is required, the
department artifact of the same batch is joined when present. -/
def dim_staff (last_checked : String) (ingestion : String → Option Df) :
    List (String × Df) :=
  match ingestion ("staff/" ++ last_checked ++ ".csv") with
  | none => []   -- logs "No staff file found" and returns
  | some staff_df =>
    let df :=
      match ingestion ("department/" ++ last_checked ++ ".csv") with
      | some dept_df => mergeLeft "department_id" staff_df dept_df
      | none => staff_df
    let df2 := dropColumns
      ["Unnamed: 0_x", "Unnamed: 0_y", "department_id", "manager",
       "created_at_x", "created_at_y", "last_updated_x", "last_updated_y"]
      df
    [("dim_staff/" ++ last_checked ++ ".parquet", df2)]

/-- Python `max(contents, key=lambda x: x["LastModified"])` over the
listed (key, last-modified) pairs; `max` keeps the first maximum. -/
def maxByLastModified : List (String × Nat) → Option (String × Nat)
  | [] => none
  | x :: xs => some (xs.foldl (fun a b => if b.2 > a.2 then b else a) x)

/-- transform.py `dim_counterparty` (lines 147-192): requires the batch's
counterparty artifact; joins the MOST RECENTLY MODIFIED address artifact
in the bucket (not necessarily this batch's).  An empty address listing
makes `response["Contents"]` raise a KeyError. -/
def dim_counterparty (last_checked : String)
    (ingestion : String → Option Df)
    (address_listing : List (String × Nat)) :
    Except PyErr (List (String × Df)) :=
  match ingestion ("counterparty/" ++ last_checked ++ ".csv") with
  | none => .ok []   -- logs "No counterparty file found" and returns
  | some cp0 =>
    match maxByLastModified address_listing with
    | none => .error .keyError
    | some best =>
      match ingestion best.1 with
      | none => .error .keyError  -- listed object vanished; not reached in
                                  -- a consistent bucket state
      | some addr_df =>
        let cp1 := renameColumn "legal_address_id" "address_id" cp0
        let df := mergeLeft "address_id" cp1 addr_df
        let df2 := dropColumns
          ["Unnamed: 0_x", "Unnamed: 0_y", "created_at_x", "created_at_y",
           "last_updated_x", "last_updated_y", "commercial_contact",
           "delivery_contact"] df
        let df3 := renameColumns
          [("address_line_1", "counterparty_legal_address_line_1"),
           ("address_line_2", "counterparty_legal_address_line_2"),
           ("city", "counterparty_legal_city"),
           ("country", "counterparty_legal_country"),
           ("district", "counterparty_legal_district"),
           ("phone", "counterparty_legal_phone_number"),
           ("postal_code", "counterparty_legal_postal_code")] df2
        .ok [("dim_counterparty/" ++ last_checked ++ ".parquet", df3)]

/-- transform.py `dim_design` (lines 194-206). -/
def dim_design (last_checked : String) (ingestion : String → Option Df) :
    List (String × Df) :=
  match ingestion ("design/" ++ last_checked ++ ".csv") with
  | none => []   -- logs "No design file found" and returns
  | some df0 =>
    let df1 := dropColumns ["Unnamed: 0", "created_at", "last_updated"] df0
    [("dim_design/" ++ last_checked ++ ".parquet", df1)]

/-- transform.py `fact_sales_order` (lines 233-273). -/
def fact_sales_order (last_checked : String)
    (ingestion : String → Option Df) : List (String × Df) :=
  match ingestion ("sales_order/" ++ last_checked ++ ".csv") with
  | none => []   -- logs "No sales_order file found" and returns
  | some df0 =>
    let df1 := dropColumns ["Unnamed: 0"] df0
    let df2 := setColumn "sales_record_id"
      (fun cols r => getCol cols r "sales_order_id") df1
    let df3 := setColumn "created_date"
      (fun cols r => isoDatePart (getCol cols r "created_at")) df2
    let df4 := setColumn "created_time"
      (fun cols r => isoTimePart (getCol cols r "created_at")) df3
    let df5 := setColumn "last_updated_date"
      (fun cols r => isoDatePart (getCol cols r "last_updated")) df4
    let df6 := setColumn "last_updated_time"
      (fun cols r => isoTimePart (getCol cols r "last_updated")) df5
    let df7 := setColumn "sales_staff_id"
      (fun cols r => getCol cols r "staff_id") df6
    let df8 := setColumn "agreed_delivery_date"
      (fun cols r => isoDatePart (getCol cols r "agreed_delivery_date")) df7
    let df9 := setColumn "agreed_payment_date"
      (fun cols r => isoDatePart (getCol cols r "agreed_payment_date")) df8
    let df10 := selectColumns
      ["sales_record_id", "sales_order_id",
       "created_date", "created_time",
       "last_updated_date", "last_updated_time",
       "sales_staff_id", "counterparty_id",
       "units_sold", "unit_price",
       "currency_id", "design_id",
       "agreed_payment_date", "agreed_delivery_date",
       "agreed_delivery_location_id"] df9
    [("fact_sales_order/" ++ last_checked ++ ".parquet", df10)]

/-! ### Date dimension

`pd.date_range(start, end)` and the `.dt` accessors are modelled with
proleptic-Gregorian day arithmetic: a date is its day count since
1970-01-01, and the calendar fields are recovered with the standard
civil-calendar conversion. -/

/-- Gregorian leap-year rule. -/
def isLeapYear (y : Nat) : Bool :=
  (decide (y % 4 = 0) && decide (¬ y % 100 = 0)) || decide (y % 400 = 0)

/-- Number of leap years in the interval [1, y]. -/
def leapCount (y : Nat) : Nat := y / 4 - y / 100 + y / 400

/-- Days from 1970-01-01 to the first day of year y (y ≥ 1970). -/
def daysBeforeYear (y : Nat) : Nat :=
  365 * (y - 1970) + (leapCount (y - 1) - leapCount 1969)

/-- Cumulative days before month m in a common year. -/
def cumulativeMonthDays (m : Nat) : Nat :=
  [0, 31, 59, 90, 120, 151, 181, 212, 243, 273, 304, 334].getD (m - 1) 0

/-- Days from the start of year y to the first day of month m. -/
def daysBeforeMonth (y m : Nat) : Nat :=
  cumulativeMonthDays m + (if decide (2 < m) && isLeapYear y then 1 else 0)

/-- Day count since 1970-01-01 of the civil date (y, m, d). -/
def toDays (y m d : Nat) : Nat :=
  daysBeforeYear y + daysBeforeMonth y m + (d - 1)

/-- Civil date (y, m, d) of a day count since 1970-01-01, via the
standard era-based conversion (valid for dates from 1970 on). -/
def fromDays (n : Nat) : Nat × Nat × Nat :=
  let z := n + 719468
  let era := z / 146097
  let doe := z % 146097
  let yoe := (doe - doe / 1460 + doe / 36524 - doe / 146096) / 365
  let y := yoe + era * 400
  let doy := doe - (365 * yoe + yoe / 4 - yoe / 100)
  let mp := (5 * doy + 2) / 153
  let d := doy - (153 * mp + 2) / 5 + 1
  let m := if mp < 10 then mp + 3 else mp - 9
  (if m ≤ 2 then y + 1 else y, m, d)

/-- pandas weekday names, indexed by `dayofweek` (Monday = 0). -/
def dayNames : List String :=
  ["Monday", "Tuesday", "Wednesday", "Thursday", "Friday", "Saturday",
   "Sunday"]

/-- pandas month names, indexed by month - 1. -/
def monthNames : List String :=
  ["January", "February", "March", "April", "May", "June", "July",
   "August", "September", "October", "November", "December"]

/-- One row of the generated date dimension: the `date_id` and the
derived columns transform.py `dim_date` adds (lines 216-222), as a
record.  1970-01-01 was a Thursday, so `dayofweek` is (n + 3) mod 7. -/
structure DateRow where
  date_id : Nat
  year : Nat
  month : Nat
  day : Nat
  day_of_week : Nat
  day_name : String
  month_name : String
  quarter : Nat
  deriving DecidableEq, Repr

/-- The derived calendar attributes of one day. -/
def mkDateRow (n : Nat) : DateRow :=
  let c := fromDays n
  { date_id := n
    year := c.1
    month := c.2.1
    day := c.2.2
    day_of_week := (n + 3) % 7
    day_name := dayNames.getD ((n + 3) % 7) ""
    month_name := monthNames.getD (c.2.1 - 1) ""
    quarter := (c.2.1 - 1) / 3 + 1 }

/-- `pd.date_range(s, e)` with the derived columns: one row for every
day from s to e inclusive. -/
def dim_date_rows (s e : Nat) : List DateRow :=
  (List.range (e + 1 - s)).map (fun i => mkDateRow (s + i))

/-- Parse of a "YYYY-MM-DD" bound as pandas accepts it. -/
def parseNatDigits (l : List Char) : Nat :=
  l.foldl (fun acc c => acc * 10 + (c.toNat - 48)) 0

def parseIsoDate (s : String) : Nat × Nat × Nat :=
  let cs := s.toList
  (parseNatDigits (cs.take 4), parseNatDigits ((cs.drop 5).take 2),
   parseNatDigits ((cs.drop 8).take 2))

/-- transform.py `dim_date` (lines 213-227): generate the inclusive
daily range between the two bounds with the derived calendar columns and
write it under the FIXED key `dim_date/dim_date.parquet` — no batch id
appears anywhere in the function. -/
def dim_date (start_s end_s : String) : String × List DateRow :=
  let sb := parseIsoDate start_s
  let eb := parseIsoDate end_s
  ("dim_date/dim_date.parquet",
   dim_date_rows (toDays sb.1 sb.2.1 sb.2.2) (toDays eb.1 eb.2.1 eb.2.2))

/-- The payload transform.py `lambda_handler` returns, together with the
writes it performed on the processed bucket. -/
structure TransformResult where
  message : String
  timestamp : String
  writes : List (String × Df)
  date_write : String × List DateRow
  deriving DecidableEq, Repr

/-- transform.py `lambda_handler` (lines 16-50): require the event's
`timestamp_to_transform`, run the six builders strictly in order against
the ingestion bucket, then regenerate `dim_date` with the fixed bounds
2020-01-01 and 2030-12-31 on every run. -/
def transform_lambda_handler (timestamp_to_transform : Option String)
    (ingestion : String → Option Df)
    (address_listing : List (String × Nat)) :
    Except PyErr TransformResult :=
  match timestamp_to_transform with
  | none => .error .valueError
  | some last_checked =>
    let w1 := fact_sales_order last_checked ingestion
    let w2 := dim_currency last_checked ingestion
    let w3 := dim_location last_checked ingestion
    let w4 := dim_design last_checked ingestion
    let w5 := dim_staff last_checked ingestion
    match dim_counterparty last_checked ingestion address_listing with
    | .error e => .error e
    | .ok w6 =>
      .ok { message := "transform_success"
            timestamp := last_checked
            writes := w1 ++ w2 ++ w3 ++ w4 ++ w5 ++ w6
            date_write := dim_date "2020-01-01" "2030-12-31" }

/-- C8: every dimension/fact builder no-ops — writes nothing and raises
nothing — when its required raw artifact is absent from the ingestion
bucket, and with every raw artifact absent the transform cycle still
runs through all builders and succeeds. -/
theorem builders_noop_on_missing_artifact :
    (∀ lc ing, ing ("sales_order/" ++ lc ++ ".csv") = none →
      fact_sales_order lc ing = []) ∧
    (∀ lc ing, ing ("currency/" ++ lc ++ ".csv") = none →
      dim_currency lc ing = []) ∧
    (∀ lc ing, ing ("address/" ++ lc ++ ".csv") = none →
      dim_location lc ing = []) ∧
    (∀ lc ing, ing ("design/" ++ lc ++ ".csv") = none →
      dim_design lc ing = []) ∧
    (∀ lc ing, ing ("staff/" ++ lc ++ ".csv") = none →
      dim_staff lc ing = []) ∧
    (∀ lc ing ad, ing ("counterparty/" ++ lc ++ ".csv") = none →
      dim_counterparty lc ing ad = .ok []) ∧
    (∀ lc ad, transform_lambda_handler (some lc) (fun _ => none) ad =
      .ok { message := "transform_success", timestamp := lc, writes := [],
            date_write := dim_date "2020-01-01" "2030-12-31" }) := by
  refine ⟨?_, ?_, ?_, ?_, ?_, ?_, ?_⟩
  · intro lc ing h; simp [fact_sales_order, h]
  · intro lc ing h; simp [dim_currency, h]
  · intro lc ing h; simp [dim_location, h]
  · intro lc ing h; simp [dim_design, h]
  · intro lc ing h; simp [dim_staff, h]
  · intro lc ing ad h; simp [dim_counterparty, h]
  · intro lc ad; rfl

/-- Witness for the builder no-op theorem at a concrete timestamp and an
empty ingestion bucket. -/
theorem builders_noop_on_missing_artifact_witness :
    fact_sales_order "2025-01-01T00:00:00+00:00" (fun _ => none) = [] ∧
    dim_staff "2025-01-01T00:00:00+00:00" (fun _ => none) = [] ∧
    dim_counterparty "2025-01-01T00:00:00+00:00" (fun _ => none) []
      = .ok [] :=
  ⟨builders_noop_on_missing_artifact.1 "2025-01-01T00:00:00+00:00" _ rfl,
   builders_noop_on_missing_artifact.2.2.2.2.1
     "2025-01-01T00:00:00+00:00" _ rfl,
   builders_noop_on_missing_artifact.2.2.2.2.2.1
     "2025-01-01T00:00:00+00:00" _ [] rfl⟩

/-- The date write of any successful transform run is the fixed-bounds
regeneration, whatever the event timestamp and bucket contents. -/
theorem transform_ok_date_write (ev : Option String)
    (ing : String → Option Df) (ad : List (String × Nat))
    (r : TransformResult)
    (h : transform_lambda_handler ev ing ad = .ok r) :
    r.date_write = dim_date "2020-01-01" "2030-12-31" := by
  cases ev with
  | none => simp [transform_lambda_handler] at h
  | some lc =>
    simp only [transform_lambda_handler] at h
    cases hc : dim_counterparty lc ing ad with
    | error e => rw [hc] at h; simp at h
    | ok w6 =>
      rw [hc] at h
      simp only [Except.ok.injEq] at h
      rw [← h]

theorem dim_date_rows_length (s e : Nat) :
    (dim_date_rows s e).length = e + 1 - s := by
  simp [dim_date_rows]

theorem dim_date_rows_ids (s e : Nat) :
    (dim_date_rows s e).map DateRow.date_id =
      (List.range (e + 1 - s)).map (fun i => s + i) := by
  simp only [dim_date_rows, List.map_map]
  rfl

theorem dim_date_rows_getElem (s e i : Nat) :
    (dim_date_rows s e)[i]? =
      if i < e + 1 - s then some (mkDateRow (s + i)) else none := by
  by_cases h : i < e + 1 - s
  · rw [if_pos h]
    simp [dim_date_rows, List.getElem?_map, List.getElem?_range h]
  · rw [if_neg h]
    apply List.getElem?_eq_none
    rw [dim_date_rows_length]
    omega

/-- The fixed-bounds call reduces to the day range 18262..22279. -/
theorem dim_date_fixed_eval :
    dim_date "2020-01-01" "2030-12-31" =
      ("dim_date/dim_date.parquet", dim_date_rows 18262 22279) := rfl

/-- C9: with the fixed bounds 2020-01-01 and 2030-12-31, the generated
date dimension is the contiguous inclusive daily range — 4018 rows, i.e.
the 4017-day span plus one, with consecutive day-number ids — whose
first row is 2020-01-01 (Wednesday, Q1) and last row (index 4017) is
2030-12-31 (Tuesday, Q4), with the derived
year/month/day/day-of-week/names/quarter columns; it is written under
the fixed key `dim_date/dim_date.parquet`, and any two successful
transform runs produce the identical date write, independent of the
batch id. -/
theorem dim_date_fixed_bounds_contract :
    (dim_date "2020-01-01" "2030-12-31").1 = "dim_date/dim_date.parquet" ∧
    (dim_date "2020-01-01" "2030-12-31").2.length = 4018 ∧
    toDays 2030 12 31 - toDays 2020 1 1 = 4017 ∧
    (dim_date "2020-01-01" "2030-12-31").2.map DateRow.date_id =
      (List.range 4018).map (fun i => toDays 2020 1 1 + i) ∧
    (dim_date "2020-01-01" "2030-12-31").2[0]? = some
      { date_id := 18262, year := 2020, month := 1, day := 1,
        day_of_week := 2, day_name := "Wednesday",
        month_name := "January", quarter := 1 } ∧
    (dim_date "2020-01-01" "2030-12-31").2[4017]? = some
      { date_id := 22279, year := 2030, month := 12, day := 31,
        day_of_week := 1, day_name := "Tuesday",
        month_name := "December", quarter := 4 } ∧
    (∀ ev1 ev2 ing1 ing2 ad1 ad2 r1 r2,
      transform_lambda_handler ev1 ing1 ad1 = .ok r1 →
      transform_lambda_handler ev2 ing2 ad2 = .ok r2 →
      r1.date_write = r2.date_write) := by
  refine ⟨rfl, ?_, by decide, ?_, ?_, ?_, ?_⟩
  · rw [dim_date_fixed_eval]
    rw [dim_date_rows_length]
  · rw [dim_date_fixed_eval]
    rw [dim_date_rows_ids]
    have hs : toDays 2020 1 1 = 18262 := by decide
    rw [hs]
  · rw [dim_date_fixed_eval]
    rw [dim_date_rows_getElem]
    norm_num
    decide
  · rw [dim_date_fixed_eval]
    rw [dim_date_rows_getElem]
    norm_num
    decide
  · intro ev1 ev2 ing1 ing2 ad1 ad2 r1 r2 h1 h2
    rw [transform_ok_date_write ev1 ing1 ad1 r1 h1,
      transform_ok_date_write ev2 ing2 ad2 r2 h2]

/-- Witness for the date-dimension theorem: two concrete transform runs
with different timestamps have the same date write. -/
theorem dim_date_fixed_bounds_contract_witness :
    ∃ r1 r2,
      transform_lambda_handler (some "2025-01-01T00:00:00+00:00")
        (fun _ => none) [] = .ok r1 ∧
      transform_lambda_handler (some "2026-06-15T12:00:00+00:00")
        (fun _ => none) [] = .ok r2 ∧
      r1.date_write = r2.date_write := by
  refine ⟨_, _, rfl, rfl, ?_⟩
  exact dim_date_fixed_bounds_contract.2.2.2.2.2.2
    (some "2025-01-01T00:00:00+00:00") (some "2026-06-15T12:00:00+00:00")
    (fun _ => none) (fun _ => none) [] [] _ _ rfl rfl

/-! ## Loader (load.py)

The warehouse is a map from table name to its rows; a row cell is
`Option Value` with `none` the SQL NULL.  The loader's database activity
is recorded as a trace of operations (one TRUNCATE, row INSERTs) which
is then interpreted against a warehouse state. -/

/-- load.py lines 100-108: the (parquet key prefix, warehouse table)
configuration. -/
def TABLE_CONFIG : List (String × String) :=
  [("dim_currency", "dim_currency"),
   ("dim_location", "dim_location"),
   ("dim_design", "dim_design"),
   ("dim_staff", "dim_staff"),
   ("dim_counterparty", "dim_counterparty"),
   ("fact_sales_order", "fact_sales_order")]

/-- load.py line 111. -/
def DIM_DATE_KEY : String := "dim_date/dim_date.parquet"

/-- load.py line 214, `df.where(pd.notnull(df), None)`: null-like cells
become the database NULL before insertion. -/
def toDbCell (v : Value) : Option Value :=
  match v with
  | .nan => none
  | v => some v

/-- One SQL statement the loader issues against the warehouse. -/
inductive LoadOp where
  | truncate (table : String)
  | insertRow (table : String) (row : List (Option Value))
  deriving DecidableEq, Repr

/-- The table an operation acts on. -/
def opTable : LoadOp → String
  | .truncate t => t
  | .insertRow t _ => t

/-- load.py `truncate_table` (lines 187-197): issues exactly one
`TRUNCATE TABLE`. -/
def truncate_table (table_name : String) : List LoadOp :=
  [.truncate table_name]

/-- load.py `insert_dataframe` (lines 200-234): early return with no
statements when the frame is empty, otherwise convert null-likes with
`toDbCell` and insert row by row. -/
def insert_dataframe (table_name : String) (df : Df) : List LoadOp :=
  if df.rows.isEmpty then []
  else df.rows.map (fun r => LoadOp.insertRow table_name (r.map toDbCell))

/-- Warehouse semantics of one statement. -/
def applyOp (wh : String → List (List (Option Value))) (op : LoadOp) :
    String → List (List (Option Value)) :=
  match op with
  | .truncate t => fun t2 => if t2 = t then [] else wh t2
  | .insertRow t r => fun t2 => if t2 = t then wh t2 ++ [r] else wh t2

/-- Warehouse state after a trace of statements. -/
def applyOps (wh : String → List (List (Option Value)))
    (ops : List LoadOp) : String → List (List (Option Value)) :=
  ops.foldl applyOp wh

/-- load.py `s3_object_exists` (lines 172-180). -/
def s3_object_exists (processed : String → Option Df) (key : String) :
    Bool :=
  (processed key).isSome

/-- The per-pair loop of load.py `lambda_handler` (lines 52-69): skip a
pair whose batch artifact is absent; otherwise truncate the target table
and insert every row of the artifact, recording the table as loaded. -/
def load_tables (processed : String → Option Df) (last_checked : String) :
    List (String × String) → List String × List LoadOp
  | [] => ([], [])
  | pair :: rest =>
    let parquet_key := pair.1 ++ "/" ++ last_checked ++ ".parquet"
    match processed parquet_key with
    | none =>   -- logs "Skipping ... (no file found)" and continues
      load_tables processed last_checked rest
    | some df =>
      let ops := truncate_table pair.2 ++ insert_dataframe pair.2 df
      let result := load_tables processed last_checked rest
      (pair.2 :: result.1, ops ++ result.2)

/-- The payload load.py `lambda_handler` returns (lines 83-87). -/
structure LoadResult where
  message : String
  timestamp_loaded : String
  tables_loaded : List String
  deriving DecidableEq, Repr

/-- load.py line 38: `event.get("timestamp") or
event.get("timestamp_to_transform")` — first present wins. -/
def resolve_timestamp (timestamp timestamp_to_transform : Option String) :
    Option String :=
  match timestamp with
  | some v => some v
  | none => timestamp_to_transform

/-- load.py `lambda_handler` (lines 19-94): resolve the batch timestamp
from the event (ValueError when missing), load every configured pair,
then the date dimension from its fixed key when present.  Credential
fetching and connection are modelled as already succeeded. -/
def load_lambda_handler (timestamp timestamp_to_transform : Option String)
    (processed : String → Option Df) :
    Except PyErr (LoadResult × List LoadOp) :=
  match resolve_timestamp timestamp timestamp_to_transform with
  | none => .error .valueError
  | some last_checked =>
    let cfg := load_tables processed last_checked TABLE_CONFIG
    match processed DIM_DATE_KEY with
    | some df_date =>
      .ok ({ message := "load_success"
             timestamp_loaded := last_checked
             tables_loaded := cfg.1 ++ ["dim_date"] },
           cfg.2 ++
             (truncate_table "dim_date" ++ insert_dataframe "dim_date" df_date))
    | none =>   -- logs "Skipping dim_date (no file found)"
      .ok ({ message := "load_success"
             timestamp_loaded := last_checked
             tables_loaded := cfg.1 }, cfg.2)

/-- The statements of a trace that act on table t. -/
def opsFor (t : String) (ops : List LoadOp) : List LoadOp :=
  ops.filter (fun op => opTable op == t)

theorem insert_dataframe_eq (t : String) (df : Df) :
    insert_dataframe t df =
      df.rows.map (fun r => LoadOp.insertRow t (r.map toDbCell)) := by
  unfold insert_dataframe
  by_cases h : df.rows.isEmpty
  · rw [if_pos h]
    rw [List.isEmpty_iff] at h
    rw [h]
    rfl
  · rw [if_neg h]

theorem opTable_insert_dataframe (t : String) (df : Df) :
    ∀ op ∈ insert_dataframe t df, opTable op = t := by
  rw [insert_dataframe_eq]
  intro op hop
  obtain ⟨r, _, rfl⟩ := List.mem_map.mp hop
  rfl

theorem opsFor_append (t : String) (a b : List LoadOp) :
    opsFor t (a ++ b) = opsFor t a ++ opsFor t b := by
  simp [opsFor, List.filter_append]

theorem opsFor_of_untouched (t : String) (ops : List LoadOp)
    (h : ∀ op ∈ ops, opTable op ≠ t) : opsFor t ops = [] := by
  rw [opsFor, List.filter_eq_nil_iff]
  intro op hop
  simp [h op hop]

theorem opsFor_of_all (t : String) (ops : List LoadOp)
    (h : ∀ op ∈ ops, opTable op = t) : opsFor t ops = ops := by
  rw [opsFor, List.filter_eq_self]
  intro op hop
  simp [h op hop]

theorem applyOp_other (wh : String → List (List (Option Value)))
    (op : LoadOp) (t : String) (h : opTable op ≠ t) :
    applyOp wh op t = wh t := by
  cases op with
  | truncate t2 =>
    simp only [opTable] at h
    exact if_neg (Ne.symm h)
  | insertRow t2 r =>
    simp only [opTable] at h
    exact if_neg (Ne.symm h)

theorem applyOps_congr (ops : List LoadOp) :
    ∀ (wh1 wh2 : String → List (List (Option Value))) (t : String),
      wh1 t = wh2 t → applyOps wh1 ops t = applyOps wh2 ops t := by
  induction ops with
  | nil => intro wh1 wh2 t h; exact h
  | cons op rest ih =>
    intro wh1 wh2 t h
    show applyOps (applyOp wh1 op) rest t = applyOps (applyOp wh2 op) rest t
    apply ih
    cases op with
    | truncate t2 =>
      by_cases ht : t = t2
      · subst ht; simp [applyOp, h]
      · simp [applyOp, ht, h]
    | insertRow t2 r =>
      by_cases ht : t = t2
      · subst ht; simp [applyOp, h]
      · simp [applyOp, ht, h]

/-- The state of table t after a trace depends only on the statements
acting on t. -/
theorem applyOps_opsFor (ops : List LoadOp) :
    ∀ (wh : String → List (List (Option Value))) (t : String),
      applyOps wh ops t = applyOps wh (opsFor t ops) t := by
  induction ops with
  | nil => intro wh t; rfl
  | cons op rest ih =>
    intro wh t
    by_cases h : opTable op = t
    · have : opsFor t (op :: rest) = op :: opsFor t rest := by
        simp [opsFor, List.filter_cons, h]
      rw [this]
      show applyOps (applyOp wh op) rest t = applyOps (applyOp wh op) (opsFor t rest) t
      exact ih (applyOp wh op) t
    · have : opsFor t (op :: rest) = opsFor t rest := by
        simp [opsFor, List.filter_cons, h]
      rw [this]
      show applyOps (applyOp wh op) rest t = applyOps wh (opsFor t rest) t
      rw [ih (applyOp wh op) t]
      exact applyOps_congr _ _ _ _ (applyOp_other wh op t h)

theorem applyOps_insert_list (t : String) :
    ∀ (rows : List (List (Option Value)))
      (wh : String → List (List (Option Value))),
      applyOps wh (rows.map (fun r => LoadOp.insertRow t r)) t =
        wh t ++ rows := by
  intro rows
  induction rows with
  | nil => intro wh; simp [applyOps]
  | cons r rest ih =>
    intro wh
    show applyOps (applyOp wh (LoadOp.insertRow t r))
      (rest.map (fun r => LoadOp.insertRow t r)) t = wh t ++ r :: rest
    rw [ih]
    simp [applyOp]

/-- One truncate followed by the inserts leaves exactly the inserted
rows, whatever the prior contents. -/
theorem applyOps_truncate_inserts
    (wh : String → List (List (Option Value))) (t : String)
    (rows : List (List (Option Value))) :
    applyOps wh
      (LoadOp.truncate t :: rows.map (fun r => LoadOp.insertRow t r)) t =
      rows := by
  show applyOps (applyOp wh (LoadOp.truncate t))
    (rows.map (fun r => LoadOp.insertRow t r)) t = rows
  rw [applyOps_insert_list]
  simp [applyOp]

/-- When no configured pair targets t, the loop neither loads t nor
issues any statement on it. -/
theorem load_tables_no_target (p : String → Option Df) (lc t : String) :
    ∀ cfg : List (String × String),
      (∀ q ∈ cfg, q.2 ≠ t) →
      t ∉ (load_tables p lc cfg).1 ∧
        opsFor t (load_tables p lc cfg).2 = [] := by
  intro cfg
  induction cfg with
  | nil =>
    intro _
    exact ⟨by simp [load_tables], by simp [load_tables, opsFor]⟩
  | cons q rest ih =>
    intro h
    have hq : q.2 ≠ t := h q (List.mem_cons_self _ _)
    obtain ⟨ih1, ih2⟩ := ih (fun x hx => h x (List.mem_cons_of_mem _ hx))
    cases hp : p (q.1 ++ "/" ++ lc ++ ".parquet") with
    | none =>
      simp only [load_tables, hp]
      exact ⟨ih1, ih2⟩
    | some df =>
      simp only [load_tables, hp]
      constructor
      · intro hmem
        rcases List.mem_cons.mp hmem with heq | hmem2
        · exact hq heq.symm
        · exact ih1 hmem2
      · rw [opsFor_append, ih2, List.append_nil]
        apply opsFor_of_untouched
        intro op hop
        rcases List.mem_append.mp hop with h1 | h1
        · simp only [truncate_table, List.mem_singleton] at h1
          rw [h1]
          exact hq
        · rw [opTable_insert_dataframe q.2 df op h1]
          exact hq

/-- When exactly one configured pair (pfx0, t) targets t: an absent
batch artifact for it means t is skipped with no statements on it; a
present artifact means t is recorded as loaded and the statements on t
are exactly one truncate followed by the artifact's row inserts. -/
theorem load_tables_unique_target (p : String → Option Df)
    (lc pfx0 t : String) :
    ∀ cfg : List (String × String),
      cfg.filter (fun q => q.2 == t) = [(pfx0, t)] →
      ((p (pfx0 ++ "/" ++ lc ++ ".parquet") = none →
        t ∉ (load_tables p lc cfg).1 ∧
          opsFor t (load_tables p lc cfg).2 = []) ∧
       (∀ df, p (pfx0 ++ "/" ++ lc ++ ".parquet") = some df →
        t ∈ (load_tables p lc cfg).1 ∧
          opsFor t (load_tables p lc cfg).2 =
            LoadOp.truncate t :: insert_dataframe t df)) := by
  intro cfg
  induction cfg with
  | nil => intro h; simp at h
  | cons q rest ih =>
    intro h
    by_cases hqt : q.2 = t
    · have hfil : (q :: rest).filter (fun q => q.2 == t) =
          q :: rest.filter (fun q => q.2 == t) := by
        simp [List.filter_cons, hqt]
      rw [hfil] at h
      simp only [List.cons.injEq] at h
      obtain ⟨hq, hrest⟩ := h
      have hrest2 : ∀ x ∈ rest, x.2 ≠ t := by
        intro x hx hxt
        have : x ∈ rest.filter (fun q => q.2 == t) :=
          List.mem_filter.mpr ⟨hx, by simp [hxt]⟩
        rw [hrest] at this
        simp at this
      obtain ⟨hno1, hno2⟩ := load_tables_no_target p lc t rest hrest2
      have hq1 : q.1 = pfx0 := by rw [hq]
      have hq2 : q.2 = t := hqt
      constructor
      · intro hnone
        have hkey : p (q.1 ++ "/" ++ lc ++ ".parquet") = none := by
          rw [hq1]; exact hnone
        simp only [load_tables, hkey]
        exact ⟨hno1, hno2⟩
      · intro df hsome
        have hkey : p (q.1 ++ "/" ++ lc ++ ".parquet") = some df := by
          rw [hq1]; exact hsome
        simp only [load_tables, hkey]
        constructor
        · rw [hq2]; exact List.mem_cons_self _ _
        · rw [opsFor_append, hno2, List.append_nil, hq2]
          rw [opsFor_of_all]
          · rfl
          · intro op hop
            rcases List.mem_append.mp hop with h1 | h1
            · simp only [truncate_table, List.mem_singleton] at h1
              rw [h1]
              rfl
            · exact opTable_insert_dataframe t df op h1
    · have hfil : (q :: rest).filter (fun q => q.2 == t) =
          rest.filter (fun q => q.2 == t) := by
        simp [List.filter_cons, hqt]
      rw [hfil] at h
      obtain ⟨ihA, ihB⟩ := ih h
      constructor
      · intro hnone
        obtain ⟨h1, h2⟩ := ihA hnone
        cases hp : p (q.1 ++ "/" ++ lc ++ ".parquet") with
        | none =>
          simp only [load_tables, hp]
          exact ⟨h1, h2⟩
        | some df =>
          simp only [load_tables, hp]
          constructor
          · intro hmem
            rcases List.mem_cons.mp hmem with heq | hmem2
            · exact hqt heq.symm
            · exact h1 hmem2
          · rw [opsFor_append, h2, List.append_nil]
            apply opsFor_of_untouched
            intro op hop
            rcases List.mem_append.mp hop with ho | ho
            · simp only [truncate_table, List.mem_singleton] at ho
              rw [ho]
              exact hqt
            · rw [opTable_insert_dataframe q.2 df op ho]
              exact hqt
      · intro df hsome
        obtain ⟨h1, h2⟩ := ihB df hsome
        cases hp : p (q.1 ++ "/" ++ lc ++ ".parquet") with
        | none =>
          simp only [load_tables, hp]
          exact ⟨h1, h2⟩
        | some df2 =>
          simp only [load_tables, hp]
          constructor
          · exact List.mem_cons_of_mem _ h1
          · rw [opsFor_append, h2]
            have hhead : opsFor t
                (truncate_table q.2 ++ insert_dataframe q.2 df2) = [] := by
              apply opsFor_of_untouched
              intro op hop
              rcases List.mem_append.mp hop with ho | ho
              · simp only [truncate_table, List.mem_singleton] at ho
                rw [ho]
                exact hqt
              · rw [opTable_insert_dataframe q.2 df2 op ho]
                exact hqt
            rw [hhead, List.nil_append]

/-- Per-target analysis of one whole loader run for a configured pair:
an absent artifact leaves the target untouched and unlisted; a present
artifact of M rows yields exactly one truncate followed by the M
null-converted row inserts, leaving exactly those M rows whatever the
warehouse held before. -/
theorem load_run_target_spec (processed : String → Option Df) (lc : String)
    (wh : String → List (List (Option Value)))
    (pfx0 tgt : String) (hmem : (pfx0, tgt) ∈ TABLE_CONFIG)
    (res : LoadResult) (ops : List LoadOp)
    (hrun : load_lambda_handler (some lc) none processed = .ok (res, ops)) :
    (processed (pfx0 ++ "/" ++ lc ++ ".parquet") = none →
      tgt ∉ res.tables_loaded ∧ opsFor tgt ops = [] ∧
      applyOps wh ops tgt = wh tgt) ∧
    (∀ df, processed (pfx0 ++ "/" ++ lc ++ ".parquet") = some df →
      tgt ∈ res.tables_loaded ∧
      opsFor tgt ops = LoadOp.truncate tgt :: insert_dataframe tgt df ∧
      applyOps wh ops tgt = df.rows.map (fun r => r.map toDbCell) ∧
      (applyOps wh ops tgt).length = df.rows.length) := by
  have hconf : TABLE_CONFIG.filter (fun q => q.2 == tgt) = [(pfx0, tgt)] ∧
      tgt ≠ "dim_date" := by
    simp only [TABLE_CONFIG, List.mem_cons, List.mem_singleton,
      Prod.mk.injEq, List.not_mem_nil, or_false] at hmem
    rcases hmem with ⟨rfl, rfl⟩ | ⟨rfl, rfl⟩ | ⟨rfl, rfl⟩ | ⟨rfl, rfl⟩ |
      ⟨rfl, rfl⟩ | ⟨rfl, rfl⟩ <;> exact ⟨by decide, by decide⟩
  obtain ⟨hfil, hnd⟩ := hconf
  have hmain : (tgt ∈ res.tables_loaded ↔
        tgt ∈ (load_tables processed lc TABLE_CONFIG).1) ∧
      opsFor tgt ops =
        opsFor tgt (load_tables processed lc TABLE_CONFIG).2 := by
    cases hdd : processed DIM_DATE_KEY with
    | some dfd =>
      simp only [load_lambda_handler, resolve_timestamp, hdd,
        Except.ok.injEq, Prod.mk.injEq] at hrun
      obtain ⟨rfl, rfl⟩ := hrun
      constructor
      · simp only [LoadResult.tables_loaded, List.mem_append,
          List.mem_singleton]
        constructor
        · rintro (h | h)
          · exact h
          · exact absurd h hnd
        · exact Or.inl
      · rw [opsFor_append]
        have hz : opsFor tgt
            (truncate_table "dim_date" ++
              insert_dataframe "dim_date" dfd) = [] := by
          apply opsFor_of_untouched
          intro op hop
          rcases List.mem_append.mp hop with ho | ho
          · simp only [truncate_table, List.mem_singleton] at ho
            rw [ho]
            exact Ne.symm hnd
          · rw [opTable_insert_dataframe _ _ _ ho]
            exact Ne.symm hnd
        rw [hz, List.append_nil]
    | none =>
      simp only [load_lambda_handler, resolve_timestamp, hdd,
        Except.ok.injEq, Prod.mk.injEq] at hrun
      obtain ⟨rfl, rfl⟩ := hrun
      exact ⟨Iff.rfl, rfl⟩
  obtain ⟨hmemiff, hopseq⟩ := hmain
  have hload := load_tables_unique_target processed lc pfx0 tgt
    TABLE_CONFIG hfil
  constructor
  · intro hnone
    obtain ⟨hn1, hn2⟩ := hload.1 hnone
    refine ⟨fun hmem2 => hn1 (hmemiff.mp hmem2), ?_, ?_⟩
    · rw [hopseq, hn2]
    · rw [applyOps_opsFor, hopseq, hn2]
      rfl
  · intro df hsome
    obtain ⟨hp1, hp2⟩ := hload.2 df hsome
    have hops3 : opsFor tgt ops =
        LoadOp.truncate tgt :: insert_dataframe tgt df := by
      rw [hopseq, hp2]
    have happ : applyOps wh ops tgt =
        df.rows.map (fun r => r.map toDbCell) := by
      rw [applyOps_opsFor, hops3, insert_dataframe_eq]
      have hmm : df.rows.map
          (fun r => LoadOp.insertRow tgt (r.map toDbCell)) =
          (df.rows.map (fun r => r.map toDbCell)).map
            (fun r => LoadOp.insertRow tgt r) := by
        rw [List.map_map]
        rfl
      rw [hmm]
      exact applyOps_truncate_inserts wh tgt _
    refine ⟨hmemiff.mpr hp1, hops3, happ, ?_⟩
    rw [happ, List.length_map]

/-- C7: for every configured (artifact-prefix, target-table) pair: when
the batch's parquet artifact is absent the warehouse table is untouched
and omitted from tables_loaded; when present with M rows the loader
issues exactly one full-table clear followed by every one of the M rows
(null-likes converted to NULL first), so the table afterwards holds
exactly M rows regardless of its prior contents. -/
theorem loader_replaces_table (processed : String → Option Df)
    (lc : String) (wh : String → List (List (Option Value)))
    (pfx0 tgt : String) (hmem : (pfx0, tgt) ∈ TABLE_CONFIG)
    (res : LoadResult) (ops : List LoadOp)
    (hrun : load_lambda_handler (some lc) none processed
      = .ok (res, ops)) :
    (processed (pfx0 ++ "/" ++ lc ++ ".parquet") = none →
      tgt ∉ res.tables_loaded ∧ opsFor tgt ops = [] ∧
      applyOps wh ops tgt = wh tgt) ∧
    (∀ df, processed (pfx0 ++ "/" ++ lc ++ ".parquet") = some df →
      tgt ∈ res.tables_loaded ∧
      opsFor tgt ops = LoadOp.truncate tgt :: insert_dataframe tgt df ∧
      applyOps wh ops tgt = df.rows.map (fun r => r.map toDbCell) ∧
      (applyOps wh ops tgt).length = df.rows.length) :=
  load_run_target_spec processed lc wh pfx0 tgt hmem res ops hrun

/-- Artifact with two rows, one containing a null-like cell. -/
def demo_currency_df : Df :=
  { cols := ["currency_id", "currency_code"]
    rows := [[.num 1, .str "GBP"], [.num 2, .nan]] }

def demo_processed (key : String) : Option Df :=
  if key = "dim_currency/2025-06-01T00:00:00+00:00.parquet" then
    some demo_currency_df
  else none

/-- A warehouse where dim_currency already holds one (stale) row. -/
def demo_wh (t : String) : List (List (Option Value)) :=
  if t = "dim_currency" then [[some (.num 99), some (.str "OLD")]]
  else []

/-- Witness: loading the two-row artifact over a one-row table leaves
exactly the two converted rows after one truncate. -/
theorem loader_replaces_table_witness :
    ∃ res ops,
      load_lambda_handler (some "2025-06-01T00:00:00+00:00") none
        demo_processed = .ok (res, ops) ∧
      "dim_currency" ∈ res.tables_loaded ∧
      opsFor "dim_currency" ops =
        LoadOp.truncate "dim_currency" ::
          insert_dataframe "dim_currency" demo_currency_df ∧
      applyOps demo_wh ops "dim_currency" =
        [[some (.num 1), some (.str "GBP")], [some (.num 2), none]] ∧
      (applyOps demo_wh ops "dim_currency").length = 2 := by
  refine ⟨_, _, rfl, ?_⟩
  have h := (loader_replaces_table demo_processed
      "2025-06-01T00:00:00+00:00" demo_wh "dim_currency" "dim_currency"
      (by decide) _ _ rfl).2 demo_currency_df (by decide)
  refine ⟨h.1, h.2.1, ?_, ?_⟩
  · rw [h.2.2.1]
    rfl
  · rw [h.2.2.2]
    rfl

/-- C10: a present-but-empty artifact still truncates the target table,
`insert_dataframe` returns early issuing zero inserts, the warehouse
table is left empty, and the table still appears in tables_loaded. -/
theorem loader_empty_artifact_still_truncates
    (processed : String → Option Df) (lc : String)
    (wh : String → List (List (Option Value)))
    (pfx0 tgt : String) (hmem : (pfx0, tgt) ∈ TABLE_CONFIG)
    (res : LoadResult) (ops : List LoadOp)
    (hrun : load_lambda_handler (some lc) none processed
      = .ok (res, ops))
    (df : Df)
    (hsome : processed (pfx0 ++ "/" ++ lc ++ ".parquet") = some df)
    (hempty : df.rows = []) :
    tgt ∈ res.tables_loaded ∧
    opsFor tgt ops = [LoadOp.truncate tgt] ∧
    insert_dataframe tgt df = [] ∧
    applyOps wh ops tgt = [] := by
  have h := (load_run_target_spec processed lc wh pfx0 tgt hmem
    res ops hrun).2 df hsome
  have hins : insert_dataframe tgt df = [] := by
    simp [insert_dataframe, hempty]
  refine ⟨h.1, ?_, hins, ?_⟩
  · rw [h.2.1, hins]
  · rw [h.2.2.1, hempty]
    rfl

/-- Empty artifact for dim_design. -/
def demo_empty_df : Df := { cols := ["design_id"], rows := [] }

def demo2_processed (key : String) : Option Df :=
  if key = "dim_design/2025-06-01T00:00:00+00:00.parquet" then
    some demo_empty_df
  else none

/-- A warehouse where dim_design already holds one row. -/
def demo2_wh (t : String) : List (List (Option Value)) :=
  if t = "dim_design" then [[some (.num 7)]] else []

/-- Witness: loading an empty artifact truncates dim_design, inserts
nothing, leaves it empty, and still lists it as loaded. -/
theorem loader_empty_artifact_still_truncates_witness :
    ∃ res ops,
      load_lambda_handler (some "2025-06-01T00:00:00+00:00") none
        demo2_processed = .ok (res, ops) ∧
      "dim_design" ∈ res.tables_loaded ∧
      opsFor "dim_design" ops = [LoadOp.truncate "dim_design"] ∧
      insert_dataframe "dim_design" demo_empty_df = [] ∧
      applyOps demo2_wh ops "dim_design" = [] := by
  refine ⟨_, _, rfl, ?_⟩
  exact loader_empty_artifact_still_truncates demo2_processed
    "2025-06-01T00:00:00+00:00" demo2_wh "dim_design" "dim_design"
    (by decide) _ _ rfl demo_empty_df (by decide) rfl

end Funland
